import Mathlib

/-!
Verification of the next-starter repository Access Gate (src/middleware.ts)
and User Record Gateway (src/lib/supabase.ts), together with the protected
GET endpoint. Each TypeScript function is shallowly embedded as an
executable Lean definition; the remote database is modelled as an explicit
table state threaded through the gateway operations.
-/

namespace NextStarter

/-! ## Access Gate — src/middleware.ts

The middleware declares four public route patterns,
`/`, `/sign-in(.*)`, `/sign-up(.*)`, `/api/public(.*)`,
compiled by `createRouteMatcher`. A pattern ending in `(.*)` matches the
literal part followed by anything (including the empty string); the others
match exactly. -/

/-- A route pattern from the `createRouteMatcher` list: either an exact
path, or a literal part followed by a trailing `(.*)` wildcard. -/
inductive RoutePattern where
  | exact (p : String)
  | wildcard (p : String)
deriving Repr, DecidableEq

/-- Character-list matching for the literal part of a wildcard pattern:
`leadMatch pat s` holds when `s` begins with `pat`. -/
def leadMatch : List Char → List Char → Bool
  | [], _ => true
  | _ :: _, [] => false
  | a :: as, b :: bs => a == b && leadMatch as bs

/-- Whether a request path matches one route pattern. -/
def matchesRoute (path : String) : RoutePattern → Bool
  | .exact p => path == p
  | .wildcard p => leadMatch p.data path.data

/-- The public patterns configured in src/middleware.ts lines 15-20. -/
def publicRoutes : List RoutePattern :=
  [ .exact ("/"),
    .wildcard ("/sign-in"),
    .wildcard ("/sign-up"),
    .wildcard ("/api/public") ]

/-- `createRouteMatcher(publicRoutes)`: the path is public when some
configured pattern matches it. -/
def isPublicRoute (path : String) : Bool :=
  publicRoutes.any (matchesRoute path)

/-- Outcome of the gate on one request. -/
inductive GateOutcome where
  | proceed
  | reject
deriving Repr, DecidableEq

/-- The `clerkMiddleware` callback (src/middleware.ts lines 22-27): for a
non-public route, `auth.protect()` rejects the request when it carries no
valid session; public routes always proceed. -/
def middleware (hasValidSession : Bool) (path : String) : GateOutcome :=
  if !isPublicRoute path then
    if hasValidSession then GateOutcome.proceed else GateOutcome.reject
  else
    GateOutcome.proceed

/-- Request pipeline: the route handler runs (and its result is returned)
only when the gate lets the request proceed; a rejected request never
reaches a handler. -/
def handleRequest {α : Type} (hasValidSession : Bool) (path : String)
    (handler : String → α) : Option α :=
  match middleware hasValidSession path with
  | GateOutcome.proceed => some (handler path)
  | GateOutcome.reject => none

/-- C1: a request whose path matches none of the configured public
patterns and that carries no valid session is rejected by the gate, and no
route handler runs (the pipeline produces no handler result). -/
theorem nonpublic_without_session_rejected {α : Type} (path : String)
    (handler : String → α) (h : isPublicRoute path = false) :
    middleware false path = GateOutcome.reject ∧
      handleRequest false path handler = none := by
  constructor
  · simp [middleware, h]
  · simp [handleRequest, middleware, h]

/-- Witness for C1 at the concrete non-public path `/dashboard`. -/
theorem nonpublic_without_session_rejected_witness :
    middleware false ("/dashboard") = GateOutcome.reject ∧
      handleRequest false ("/dashboard") String.length = none :=
  nonpublic_without_session_rejected ("/dashboard") String.length (by decide)

/-- C2: every path matching at least one configured public pattern passes
the gate and reaches the handler regardless of session state, and every
sub-path of the trailing-wildcard pattern `/sign-in(.*)` does match. -/
theorem public_route_always_proceeds :
    (∀ (path : String) (s : Bool) (handler : String → Nat),
        isPublicRoute path = true →
        handleRequest s path handler = some (handler path)) ∧
    (∀ (suffix : String), isPublicRoute (("/sign-in") ++ suffix) = true) := by
  constructor
  · intro path s handler h
    simp [handleRequest, middleware, h]
  · intro suffix
    have hlead : ∀ (xs ys : List Char), leadMatch xs (xs ++ ys) = true := by
      intro xs ys
      induction xs with
      | nil => rfl
      | cons a as ih => simp [leadMatch, ih]
    have hdata : (("/sign-in") ++ suffix).data = ("/sign-in").data ++ suffix.data :=
      String.data_append _ _
    have h2 : matchesRoute (("/sign-in") ++ suffix)
        (RoutePattern.wildcard ("/sign-in")) = true := by
      simp only [matchesRoute, hdata]
      exact hlead _ _
    exact List.any_eq_true.mpr
      ⟨RoutePattern.wildcard ("/sign-in"), by simp [publicRoutes], h2⟩

/-- Witness for C2 at the concrete sub-path `/sign-in/anything` with no
session. -/
theorem public_route_always_proceeds_witness :
    handleRequest false ("/sign-in/anything") String.length =
      some (("/sign-in/anything").length) :=
  public_route_always_proceeds.1 ("/sign-in/anything") false String.length
    (by decide)

/-! ## User Record Gateway — src/lib/supabase.ts over src/types/supabase.ts

The `users` table row shape is the `Database.public.Tables.users.Row`
type. The remote store is modelled as an explicit state: the list of rows
plus a counter from which the server-generated `id` and timestamp values
are drawn on insert. The database enforces the uniqueness constraint on
`clerkId` named by the spec; `.single()` yields the row when the query
produced exactly one row and a PGRST116-style error otherwise, and an
error response rolls the transaction back. -/

/-- One row of the `users` table (src/types/supabase.ts, Row). -/
structure UserRow where
  id : String
  clerkId : String
  email : String
  name : Option String
  created_at : String
  updated_at : String
deriving Repr, DecidableEq

/-- Errors surfaced by the remote client: `.single()` saw zero rows,
`.single()` saw several rows, a uniqueness-constraint violation, or a
transport-level query failure. -/
inductive DbError where
  | noRows
  | multipleRows
  | uniqueViolation
  | queryFailure
deriving Repr, DecidableEq

/-- The remote store state: current `users` rows and the source of
server-generated `id` / timestamp values. -/
structure Db where
  rows : List UserRow
  counter : Nat
deriving Repr, DecidableEq

/-- The `{ data, error }` pair every gateway helper returns. -/
abbrev DbResult := Option UserRow × Option DbError

/-- Server-generated primary key for the `counter`-th insert. -/
def genId (n : Nat) : String := ("id-") ++ toString n

/-- Server-generated timestamp for the `counter`-th insert. -/
def genTimestamp (n : Nat) : String := ("ts-") ++ toString n

/-- `getUserByClerkId` (src/lib/supabase.ts lines 18-26):
`select().eq(clerkId, clerkId).single()` — the row when exactly one row
matches, otherwise a null record with the `.single()` error. -/
def getUserByClerkId (db : Db) (clerkId : String) : DbResult :=
  match db.rows.filter (fun r => r.clerkId == clerkId) with
  | [row] => (some row, none)
  | [] => (none, some DbError.noRows)
  | _ => (none, some DbError.multipleRows)

/-- The argument of `createUser`:
`Pick<Insert, clerkId | email | name>`. -/
structure InsertUser where
  clerkId : String
  email : String
  name : Option String
deriving Repr, DecidableEq

/-- `createUser` (src/lib/supabase.ts lines 29-39):
`insert(userData).select().single()` — inserts one row with
server-generated `id` and timestamps and returns it, or returns the
uniqueness-violation error with the state unchanged when a row with the
same `clerkId` already exists. -/
def createUser (db : Db) (userData : InsertUser) : DbResult × Db :=
  if db.rows.any (fun r => r.clerkId == userData.clerkId) then
    ((none, some DbError.uniqueViolation), db)
  else
    let row : UserRow :=
      { id := genId db.counter,
        clerkId := userData.clerkId,
        email := userData.email,
        name := userData.name,
        created_at := genTimestamp db.counter,
        updated_at := genTimestamp db.counter }
    ((some row, none), { rows := db.rows ++ [row], counter := db.counter + 1 })

/-- The argument of `updateUser`: `Partial<Update>` — every column
optional, including `clerkId` itself (src/types/supabase.ts lines
29-36). -/
structure UpdateUser where
  id : Option String := none
  clerkId : Option String := none
  email : Option String := none
  name : Option (Option String) := none
  created_at : Option String := none
  updated_at : Option String := none
deriving Repr, DecidableEq

/-- Apply the present fields of an update payload to a row; omitted fields
keep the value the row already has. -/
def applyUpdate (row : UserRow) (u : UpdateUser) : UserRow :=
  { id := u.id.getD row.id,
    clerkId := u.clerkId.getD row.clerkId,
    email := u.email.getD row.email,
    name := u.name.getD row.name,
    created_at := u.created_at.getD row.created_at,
    updated_at := u.updated_at.getD row.updated_at }

/-- Whether a list of rows repeats some `clerkId` (used for the uniqueness
check on the rows an update rewrites). -/
def clerkIdDup : List UserRow → Bool
  | [] => false
  | r :: rs => rs.any (fun s => s.clerkId == r.clerkId) || clerkIdDup rs

/-- `updateUser` (src/lib/supabase.ts lines 42-54):
`update(userData).eq(clerkId, clerkId).select().single()` — rewrites
every matching row, then `.single()` demands exactly one rewritten row.
A uniqueness violation on the rewritten rows, or a `.single()` error
response, rolls the transaction back, leaving the state unchanged. -/
def updateUser (db : Db) (clerkId : String) (userData : UpdateUser) :
    DbResult × Db :=
  let updatedMatches :=
    (db.rows.filter (fun r => r.clerkId == clerkId)).map
      (fun r => applyUpdate r userData)
  let others := db.rows.filter (fun r => !(r.clerkId == clerkId))
  if clerkIdDup updatedMatches ||
      updatedMatches.any (fun r => others.any (fun s => s.clerkId == r.clerkId)) then
    ((none, some DbError.uniqueViolation), db)
  else
    match updatedMatches with
    | [row] =>
        ((some row, none),
          { db with
            rows := db.rows.map
              (fun r => if r.clerkId == clerkId then applyUpdate r userData else r) })
    | [] => ((none, some DbError.noRows), db)
    | _ => ((none, some DbError.multipleRows), db)

/-- `deleteUser` (src/lib/supabase.ts lines 57-62):
`delete().eq(clerkId, clerkId)` with no `.select()` — removes every
matching row and returns the raw outcome, whose `data` and `error` are
both null on success. -/
def deleteUser (db : Db) (clerkId : String) : DbResult × Db :=
  ((none, none),
    { db with rows := db.rows.filter (fun r => !(r.clerkId == clerkId)) })

/-! ## Protected GET endpoint — the `GET` handler (src/unnamed/part_004,
also src/app/api/protected/route.ts) -/

/-- The three HTTP responses the handler can produce. -/
inductive HttpResponse where
  | jsonOk (body : List UserRow)
  | unauthorizedText
  | internalErrorText
deriving Repr, DecidableEq

/-- `supabase.from(users).select(*)`: all rows of the table, or a
transport-level failure surfaced as an error with null data. -/
def selectStar (db : Db) (queryFails : Bool) :
    Option (List UserRow) × Option DbError :=
  if queryFails then (none, some DbError.queryFailure)
  else (some db.rows, none)

/-- The `GET` handler: 401 plain text when `auth()` yields no userId;
otherwise `select(*)`, throwing any error into the catch block (500
plain text) and returning the rows as a JSON 200 on success. -/
def GET (db : Db) (queryFails : Bool) (userId : Option String) :
    HttpResponse :=
  match userId with
  | none => HttpResponse.unauthorizedText
  | some _ =>
    let res := selectStar db queryFails
    match res.2 with
    | some _ => HttpResponse.internalErrorText
    | none => HttpResponse.jsonOk (res.1.getD [])

/-- C3: for every request, the GET endpoint answers 401 plain text without
a session, a 200 JSON array of all user rows with a session when the
remote query succeeds, and 500 plain text with a session when the remote
query fails. -/
theorem GET_response_cases (db : Db) (uid : String) :
    GET db true none = HttpResponse.unauthorizedText ∧
    GET db false none = HttpResponse.unauthorizedText ∧
    GET db false (some uid) = HttpResponse.jsonOk db.rows ∧
    GET db true (some uid) = HttpResponse.internalErrorText := by
  refine ⟨rfl, rfl, ?_, rfl⟩
  simp [GET, selectStar]

/-! ## C4 — the `{ data, error }` pair shape of the four gateway helpers -/

/-- The two components of a result pair are never both populated. -/
def resultExclusive (r : DbResult) : Prop :=
  ¬ (r.1.isSome = true ∧ r.2.isSome = true)

/-- On success (null error) the record component is populated. -/
def resultSuccessPopulated (r : DbResult) : Prop :=
  r.2 = none → r.1.isSome = true

/-- C4 counterexample: a successful `deleteUser` call — on a table that
does hold a row with the given `clerkId` — returns a pair whose error is
null and whose record is also null, so the four operations do not all
return a populated component on success. -/
theorem deleteUser_success_both_null :
    (deleteUser
        { rows := [{ id := ("id-0"), clerkId := ("c1"), email := ("a@x.com"),
                     name := none, created_at := ("ts-0"), updated_at := ("ts-0") }],
          counter := 1 } ("c1")).1.2 = none ∧
    (deleteUser
        { rows := [{ id := ("id-0"), clerkId := ("c1"), email := ("a@x.com"),
                     name := none, created_at := ("ts-0"), updated_at := ("ts-0") }],
          counter := 1 } ("c1")).1.1 = none := by
  constructor <;> rfl

/-- C4 (amended): every result pair of the four operations has at most one
component populated; on success `getUserByClerkId`, `createUser` and
`updateUser` return a populated record, while `deleteUser` returns both
components null. -/
theorem gateway_result_pair_shape (db : Db) (c : String) (ins : InsertUser)
    (upd : UpdateUser) :
    resultExclusive (getUserByClerkId db c) ∧
    resultSuccessPopulated (getUserByClerkId db c) ∧
    resultExclusive (createUser db ins).1 ∧
    resultSuccessPopulated (createUser db ins).1 ∧
    resultExclusive (updateUser db c upd).1 ∧
    resultSuccessPopulated (updateUser db c upd).1 ∧
    resultExclusive (deleteUser db c).1 ∧
    (deleteUser db c).1 = (none, none) := by
  refine ⟨?_, ?_, ?_, ?_, ?_, ?_, ?_, rfl⟩
  · simp only [resultExclusive, getUserByClerkId]
    split <;> simp
  · simp only [resultSuccessPopulated, getUserByClerkId]
    split <;> simp
  · simp only [resultExclusive, createUser]
    split <;> simp
  · simp only [resultSuccessPopulated, createUser]
    split <;> simp
  · simp only [resultExclusive, updateUser]
    split
    · simp
    · split <;> simp
  · simp only [resultSuccessPopulated, updateUser]
    split
    · simp
    · split <;> simp
  · simp only [resultExclusive, deleteUser]
    simp

/-! ## C5-C10 — behaviour of the four gateway operations -/

/-- C5: creating a user whose `clerkId` has no prior row and then fetching
by that `clerkId` returns the created row, whose `clerkId`, `email` and
`name` equal the created values. -/
theorem create_then_fetch_roundtrip (db : Db) (ins : InsertUser)
    (h : ∀ r ∈ db.rows, r.clerkId ≠ ins.clerkId) :
    ∃ row : UserRow,
      (createUser db ins).1 = (some row, none) ∧
      row.clerkId = ins.clerkId ∧ row.email = ins.email ∧ row.name = ins.name ∧
      getUserByClerkId (createUser db ins).2 ins.clerkId = (some row, none) := by
  have hany : db.rows.any (fun r => r.clerkId == ins.clerkId) = false := by
    simp only [List.any_eq_false]
    intro r hr
    simp [h r hr]
  have hnil : db.rows.filter (fun r => r.clerkId == ins.clerkId) = [] :=
    List.filter_eq_nil_iff.mpr (fun r hr => by simp [h r hr])
  refine ⟨{ id := genId db.counter, clerkId := ins.clerkId, email := ins.email,
            name := ins.name, created_at := genTimestamp db.counter,
            updated_at := genTimestamp db.counter }, ?_, rfl, rfl, rfl, ?_⟩
  · simp [createUser, hany]
  · simp only [createUser, hany, Bool.false_eq_true, if_false,
      getUserByClerkId]
    rw [List.filter_append, hnil]
    simp

/-- Witness for C5: create then fetch on the empty table. -/
theorem create_then_fetch_roundtrip_witness :
    ∃ row : UserRow,
      (createUser { rows := [], counter := 0 }
          { clerkId := ("c1"), email := ("a@x.com"), name := none }).1 =
        (some row, none) ∧
      row.clerkId = ("c1") ∧ row.email = ("a@x.com") ∧ row.name = none ∧
      getUserByClerkId
          (createUser { rows := [], counter := 0 }
            { clerkId := ("c1"), email := ("a@x.com"), name := none }).2 ("c1") =
        (some row, none) :=
  create_then_fetch_roundtrip { rows := [], counter := 0 }
    { clerkId := ("c1"), email := ("a@x.com"), name := none }
    (by intro r hr; simp at hr)

/-- C6: fetching a `clerkId` that matches zero rows returns a null record
together with a populated (no-rows) error. -/
theorem fetch_zero_rows_errors (db : Db) (c : String)
    (h : ∀ r ∈ db.rows, r.clerkId ≠ c) :
    getUserByClerkId db c = (none, some DbError.noRows) := by
  have hnil : db.rows.filter (fun r => r.clerkId == c) = [] :=
    List.filter_eq_nil_iff.mpr (fun r hr => by simp [h r hr])
  simp [getUserByClerkId, hnil]

/-- Witness for C6 on a table holding only a different `clerkId`. -/
theorem fetch_zero_rows_errors_witness :
    getUserByClerkId
        { rows := [{ id := ("id-0"), clerkId := ("c2"), email := ("b@x.com"),
                     name := none, created_at := ("ts-0"), updated_at := ("ts-0") }],
          counter := 1 } ("c1") = (none, some DbError.noRows) :=
  fetch_zero_rows_errors
    { rows := [{ id := ("id-0"), clerkId := ("c2"), email := ("b@x.com"),
                 name := none, created_at := ("ts-0"), updated_at := ("ts-0") }],
      counter := 1 } ("c1") (by intro r hr; simp at hr; simp [hr])

/-- C7: creating a user whose `clerkId` duplicates an existing row returns
a uniqueness error with a null record and leaves the table state exactly
as it was (the prior row untouched, no new or partial row). -/
theorem create_duplicate_errors (db : Db) (ins : InsertUser)
    (h : ∃ r ∈ db.rows, r.clerkId = ins.clerkId) :
    createUser db ins = ((none, some DbError.uniqueViolation), db) := by
  have hany : db.rows.any (fun r => r.clerkId == ins.clerkId) = true := by
    rcases h with ⟨r, hr, he⟩
    exact List.any_eq_true.mpr ⟨r, hr, by simp [he]⟩
  simp [createUser, hany]

/-- Witness for C7: duplicate create against a one-row table. -/
theorem create_duplicate_errors_witness :
    createUser
        { rows := [{ id := ("id-0"), clerkId := ("c1"), email := ("a@x.com"),
                     name := none, created_at := ("ts-0"), updated_at := ("ts-0") }],
          counter := 1 }
        { clerkId := ("c1"), email := ("other@x.com"), name := none } =
      ((none, some DbError.uniqueViolation),
       { rows := [{ id := ("id-0"), clerkId := ("c1"), email := ("a@x.com"),
                    name := none, created_at := ("ts-0"), updated_at := ("ts-0") }],
         counter := 1 }) :=
  create_duplicate_errors
    { rows := [{ id := ("id-0"), clerkId := ("c1"), email := ("a@x.com"),
                 name := none, created_at := ("ts-0"), updated_at := ("ts-0") }],
      counter := 1 }
    { clerkId := ("c1"), email := ("other@x.com"), name := none }
    ⟨{ id := ("id-0"), clerkId := ("c1"), email := ("a@x.com"), name := none,
       created_at := ("ts-0"), updated_at := ("ts-0") }, by simp, rfl⟩

/-- C8: updating a `clerkId` that matches no row returns an error with a
null record and leaves the table unchanged — in particular no row is
inserted (update is not upsert). -/
theorem update_missing_errors (db : Db) (c : String) (upd : UpdateUser)
    (h : ∀ r ∈ db.rows, r.clerkId ≠ c) :
    updateUser db c upd = ((none, some DbError.noRows), db) := by
  have hnil : db.rows.filter (fun r => r.clerkId == c) = [] :=
    List.filter_eq_nil_iff.mpr (fun r hr => by simp [h r hr])
  simp [updateUser, hnil, clerkIdDup]

/-- Witness for C8: update of an absent `clerkId` on the empty table. -/
theorem update_missing_errors_witness :
    updateUser { rows := [], counter := 0 } ("c1") { name := some (some ("A")) } =
      ((none, some DbError.noRows), { rows := [], counter := 0 }) :=
  update_missing_errors { rows := [], counter := 0 } ("c1")
    { name := some (some ("A")) } (by intro r hr; simp at hr)

/-- C9: after deleting a `clerkId`, fetching that `clerkId` returns a null
record with the not-found error: no matching row remains. -/
theorem delete_then_fetch_not_found (db : Db) (c : String) :
    getUserByClerkId (deleteUser db c).2 c = (none, some DbError.noRows) := by
  have hnil : ((deleteUser db c).2).rows.filter (fun r => r.clerkId == c) = [] := by
    simp only [deleteUser]
    rw [List.filter_filter]
    exact List.filter_eq_nil_iff.mpr (fun r hr => by simp)
  simp [getUserByClerkId, hnil]

/-- C10: the update payload admits `clerkId` itself; updating the one row
matching `c1` to carry `clerkId = c2` (with `c2` unused) succeeds,
rewrites the correlation key, and afterwards fetching `c1` finds nothing
while fetching `c2` finds the rewritten row. -/
theorem update_rewrites_clerkId_key (db : Db) (c1 c2 : String) (r0 : UserRow)
    (h1 : db.rows.filter (fun r => r.clerkId == c1) = [r0])
    (h2 : ∀ r ∈ db.rows, r.clerkId ≠ c2) :
    (applyUpdate r0 { clerkId := some c2 }).clerkId = c2 ∧
    (updateUser db c1 { clerkId := some c2 }).1 =
      (some (applyUpdate r0 { clerkId := some c2 }), none) ∧
    getUserByClerkId (updateUser db c1 { clerkId := some c2 }).2 c1 =
      (none, some DbError.noRows) ∧
    getUserByClerkId (updateUser db c1 { clerkId := some c2 }).2 c2 =
      (some (applyUpdate r0 { clerkId := some c2 }), none) := by
  have hr0 : r0 ∈ db.rows ∧ (r0.clerkId == c1) = true :=
    List.mem_filter.mp (h1 ▸ List.mem_singleton.mpr rfl)
  have hr0c1 : r0.clerkId = c1 := by
    have := hr0.2
    simpa using this
  have hne : c1 ≠ c2 := hr0c1 ▸ h2 r0 hr0.1
  have hkey : (applyUpdate r0 { clerkId := some c2 }).clerkId = c2 := rfl
  have hcond : (clerkIdDup ((db.rows.filter (fun r => r.clerkId == c1)).map
        (fun r => applyUpdate r { clerkId := some c2 })) ||
      ((db.rows.filter (fun r => r.clerkId == c1)).map
        (fun r => applyUpdate r { clerkId := some c2 })).any
        (fun r => (db.rows.filter (fun s => !(s.clerkId == c1))).any
          (fun s => s.clerkId == r.clerkId))) = false := by
    rw [h1]
    simp only [List.map_cons, List.map_nil, clerkIdDup, List.any_nil,
      Bool.or_false, Bool.false_or, List.any_cons]
    simp only [List.any_eq_false]
    intro s hs
    have hsmem : s ∈ db.rows := (List.mem_filter.mp hs).1
    simp [applyUpdate, h2 s hsmem]
  have hupd : updateUser db c1 { clerkId := some c2 } =
      ((some (applyUpdate r0 { clerkId := some c2 }), none),
        { db with rows := (db.rows.map
            (fun r => if r.clerkId == c1 then
                applyUpdate r { clerkId := some c2 } else r)) }) := by
    simp only [updateUser]
    rw [hcond]
    simp only [Bool.false_eq_true, if_false, h1, List.map_cons, List.map_nil]
  refine ⟨hkey, by rw [hupd], ?_, ?_⟩
  · rw [hupd]
    have hnil : (db.rows.map (fun r => if r.clerkId == c1 then
        applyUpdate r { clerkId := some c2 } else r)).filter
          (fun r => r.clerkId == c1) = [] := by
      refine List.filter_eq_nil_iff.mpr ?_
      intro a ha
      rcases List.mem_map.mp ha with ⟨r, hrmem, hra⟩
      by_cases hc : (r.clerkId == c1) = true
      · rw [if_pos hc] at hra
        rw [← hra]
        simp [applyUpdate, Ne.symm hne]
      · rw [if_neg hc] at hra
        rw [← hra]
        simpa using hc
    simp only [getUserByClerkId]
    rw [hnil]
  · rw [hupd]
    have hfilter : (db.rows.map (fun r => if r.clerkId == c1 then
        applyUpdate r { clerkId := some c2 } else r)).filter
          (fun r => r.clerkId == c2) =
        [applyUpdate r0 { clerkId := some c2 }] := by
      rw [List.filter_map]
      have hcong : db.rows.filter
          ((fun r => r.clerkId == c2) ∘ (fun r => if r.clerkId == c1 then
            applyUpdate r { clerkId := some c2 } else r)) =
          db.rows.filter (fun r => r.clerkId == c1) := by
        refine List.filter_congr ?_
        intro r hrmem
        have hcomp : ((fun r => r.clerkId == c2) ∘ (fun r =>
            if r.clerkId == c1 then applyUpdate r { clerkId := some c2 } else r)) r =
            ((if r.clerkId == c1 then applyUpdate r { clerkId := some c2 }
              else r).clerkId == c2) := rfl
        rw [hcomp]
        by_cases hc : (r.clerkId == c1) = true
        · rw [if_pos hc]
          simp [applyUpdate, hc]
        · rw [if_neg hc]
          have hc2 : r.clerkId ≠ c2 := h2 r hrmem
          have hc1 : (r.clerkId == c1) = false := by simpa using hc
          simp [hc2, hc1]
      rw [hcong, h1]
      simp [List.map_cons, hr0c1]
    simp only [getUserByClerkId]
    rw [hfilter]

/-- Witness for C10: rewriting the key `c1` to `c2` on a one-row table. -/
theorem update_rewrites_clerkId_key_witness :
    (applyUpdate
        { id := ("id-0"), clerkId := ("c1"), email := ("a@x.com"), name := none,
          created_at := ("ts-0"), updated_at := ("ts-0") }
        { clerkId := some ("c2") }).clerkId = ("c2") ∧
    (updateUser
        { rows := [{ id := ("id-0"), clerkId := ("c1"), email := ("a@x.com"),
                     name := none, created_at := ("ts-0"), updated_at := ("ts-0") }],
          counter := 1 } ("c1") { clerkId := some ("c2") }).1 =
      (some (applyUpdate
        { id := ("id-0"), clerkId := ("c1"), email := ("a@x.com"), name := none,
          created_at := ("ts-0"), updated_at := ("ts-0") }
        { clerkId := some ("c2") }), none) ∧
    getUserByClerkId
        (updateUser
          { rows := [{ id := ("id-0"), clerkId := ("c1"), email := ("a@x.com"),
                       name := none, created_at := ("ts-0"), updated_at := ("ts-0") }],
            counter := 1 } ("c1") { clerkId := some ("c2") }).2 ("c1") =
      (none, some DbError.noRows) ∧
    getUserByClerkId
        (updateUser
          { rows := [{ id := ("id-0"), clerkId := ("c1"), email := ("a@x.com"),
                       name := none, created_at := ("ts-0"), updated_at := ("ts-0") }],
            counter := 1 } ("c1") { clerkId := some ("c2") }).2 ("c2") =
      (some (applyUpdate
        { id := ("id-0"), clerkId := ("c1"), email := ("a@x.com"), name := none,
          created_at := ("ts-0"), updated_at := ("ts-0") }
        { clerkId := some ("c2") }), none) :=
  update_rewrites_clerkId_key
    { rows := [{ id := ("id-0"), clerkId := ("c1"), email := ("a@x.com"),
                 name := none, created_at := ("ts-0"), updated_at := ("ts-0") }],
      counter := 1 } ("c1") ("c2")
    { id := ("id-0"), clerkId := ("c1"), email := ("a@x.com"), name := none,
      created_at := ("ts-0"), updated_at := ("ts-0") }
    (by decide) (by intro r hr; simp at hr; simp [hr])

end NextStarter
